import Mathlib

/-
Verification of the deeppresenter rich-file tools
(deeppresenter/tools/richfile.py) against their specification.

Modelling conventions, chosen once for the whole file:
* Machine effects are abstracted into per-call environment records whose
  fields are oracles for the external operations the Python code invokes
  (HTTP attempts, image decoding, HTML-to-PPTX conversion, rasterisation).
* A Python exception is modelled by the `PyExn` structure; an operation that
  may raise returns `Except PyExn A`.  A tool whose result type is
  `Except PyExn R` returns `.error e` exactly when the Python function lets
  an exception escape to the caller, and `.ok r` when it returns the value r.
* The local filesystem is a map `FS := String -> Option String` from paths to
  file contents: a path exists iff it is in the map, and reading an existing
  file always succeeds.  Local metadata operations (mkdir, Path.absolute,
  Path.exists) are treated as non-raising, matching how the source code uses
  them; the fallible operations are the external ones listed above.
* Python strings are modelled as Lean `String` / `List Char`.  The regular
  expressions of the source are hand-compiled to executable matchers with
  Python `re` semantics (lazy quantifiers, `.` not matching a newline,
  non-overlapping finditer scanning).
-/

/-- A Python exception value; `msg` is its `str(e)` rendering. -/
structure PyExn where
  msg : String
deriving DecidableEq

/-- The local filesystem: path to contents; `none` means the path does not exist. -/
abbrev FS := String → Option String

/-- ASCII lowering of one character, the fragment of Python `str.lower`
relevant to the suffix checks of the source (no Unicode character lowers
into the ASCII letters used by those suffixes). -/
def lowerChar (c : Char) : Char :=
  if 'A' ≤ c ∧ c ≤ 'Z' then Char.ofNat (c.toNat + 32) else c

/-- Python `s.lower()` restricted to ASCII case folding. -/
def lowerStr (s : String) : String :=
  String.mk (s.toList.map lowerChar)

/-- Python `s.endswith(suffix)`. -/
def strEndsWith (s suffix_str : String) : Bool :=
  suffix_str.toList.isSuffixOf s.toList

/-- Python whitespace for `str.strip()` truthiness (the ASCII and Latin-1
characters Python counts as whitespace). -/
def isPyWs (c : Char) : Bool :=
  c == ' ' || c == '\t' || c == '\n' || c == '\r' ||
  c == Char.ofNat 11 || c == Char.ofNat 12 ||
  c == Char.ofNat 28 || c == Char.ofNat 29 || c == Char.ofNat 30 ||
  c == Char.ofNat 31 || c == Char.ofNat 133 || c == Char.ofNat 160

/-- Python `f"{n:02d}"` for a non-negative argument. -/
def pad2 (n : Nat) : String :=
  if n < 10 then "0" ++ toString n else toString n

/-- Python `s.split(sep)` for a non-empty separator, on character lists:
left-to-right, non-overlapping, keeping empty segments.  `fuel` bounds the
recursion; with `fuel = s.length` it is never exhausted, since every step
consumes at least one character. -/
def pySplitAux (sep : List Char) : Nat → List Char → List Char → List (List Char)
  | 0, acc, rest => [acc.reverse ++ rest]
  | _ + 1, acc, [] => [acc.reverse]
  | fuel + 1, acc, c :: rest =>
    if sep.isPrefixOf (c :: rest) then
      acc.reverse :: pySplitAux sep fuel [] ((c :: rest).drop sep.length)
    else
      pySplitAux sep fuel (c :: acc) rest

/-- Python `s.split(sep)` for a non-empty `sep`. -/
def pySplit (s sep : List Char) : List (List Char) :=
  pySplitAux sep s.length [] s

/-- Python `markdown.count(sub)` for a non-empty `sub`: non-overlapping
occurrences, scanning left to right.  `fuel = s.length` suffices, as every
step consumes at least one character. -/
def countOccAux (p : Char) (ps : List Char) : Nat → List Char → Nat
  | 0, _ => 0
  | _ + 1, [] => 0
  | fuel + 1, c :: rest =>
    if (p :: ps).isPrefixOf (c :: rest) then
      1 + countOccAux p ps fuel (rest.drop ps.length)
    else
      countOccAux p ps fuel rest

/-- Python `doc.count(pat)` (for the empty pattern Python returns
`len(doc) + 1`). -/
def pyCount (doc pat : List Char) : Nat :=
  match pat with
  | [] => doc.length + 1
  | p :: ps => countOccAux p ps doc.length doc

/- ---------------------------------------------------------------------
Fetcher: download_file
--------------------------------------------------------------------- -/

/-- Environment of one `download_file` call.
`attempt i` tells whether iteration `i` of the retry loop runs to completion
(the GET succeeds and the body is written); `false` means some exception was
raised inside the `try` body of that iteration.  `decode` is the result of
`PIL.Image.open` on the saved file: dimensions, or the exception it raises. -/
structure DlEnv where
  attempt : Nat → Bool
  decode : Except PyExn (Nat × Nat)

/-- The `for retry in range(n)` loop of `download_file`, started at index `i`
with `n` iterations left.  Returns the list of sleep durations performed (the
loop sleeps `retry` seconds at the start of iteration `retry`) and the index
of the first iteration that breaks out, `none` when the `for ... else` branch
is reached. -/
def dlLoopAux (attempt : Nat → Bool) : Nat → Nat → List Nat × Option Nat
  | _, 0 => ([], none)
  | i, n + 1 =>
    if attempt i then ([i], some i)
    else
      let p := dlLoopAux attempt (i + 1) n
      (i :: p.1, p.2)

/-- The whole retry loop of `download_file`: sleep durations in order, and the
index of the first successful attempt. -/
def dlLoop (attempt : Nat → Bool) (n : Nat) : List Nat × Option Nat :=
  dlLoopAux attempt 0 n

/-- `output_path.lower().endswith((".png", ".jpg", ".jpeg", ".gif", ".webp", ".bmp"))`. -/
def hasImageExt (p : String) : Bool :=
  let l := lowerStr p
  strEndsWith l ".png" || strEndsWith l ".jpg" || strEndsWith l ".jpeg" ||
  strEndsWith l ".gif" || strEndsWith l ".webp" || strEndsWith l ".bmp"

/-- `download_file(url, output_path)`.  Modelled from the spec:
`retry_times` stands for the configuration value RETRY_TIMES, an environment
dependency whose value lives outside this repository; it is taken as a
parameter, and no claim depends on its value.  The directory creation before
the loop is a local metadata operation, modelled as non-raising. -/
def download_file (env : DlEnv) (retry_times : Nat) (url output_path : String) :
    Except PyExn String :=
  match (dlLoop env.attempt retry_times).2 with
  | none => .ok ("Failed to download file from " ++ url)
  | some _ =>
    let result := "File downloaded to " ++ output_path
    if hasImageExt output_path then
      match env.decode with
      | .ok wh =>
        .ok (result ++ " (resolution: " ++ toString wh.1 ++ "x" ++ toString wh.2 ++ ")")
      | .error e =>
        .ok ("The provided URL does not point to a valid image file: " ++ e.msg)
    else
      .ok result

/- ---------------------------------------------------------------------
Table renderer: markdown_table_to_image
--------------------------------------------------------------------- -/

/-- Environment of one `markdown_table_to_image` call: `toHtml` is the
markdown-to-HTML conversion (`mistune.html`), and `render` is the external
rasteriser `get_html_table_image(html, path, css)`, which may raise. -/
structure TblEnv where
  toHtml : String → String
  render : String → String → String → Except PyExn Unit

/-- `markdown_table_to_image(markdown_table, path, css)`.  The source wraps
nothing in `try`, so an exception of the rasteriser propagates to the
caller (`.error e`). -/
def markdown_table_to_image (env : TblEnv) (markdown_table path css : String) :
    Except PyExn String :=
  match env.render (env.toHtml markdown_table) path css with
  | .error e => .error e
  | .ok _ => .ok ("Markdown table converted to image and saved to " ++ path)

/-- Whether a modelled call returned a value to its caller, as opposed to
letting an exception propagate. -/
def returnsValue {α : Type} : Except PyExn α → Bool
  | .ok _ => true
  | .error _ => false

/- ---------------------------------------------------------------------
Slide inspector: inspect_slide
--------------------------------------------------------------------- -/

/-- The final component of a path, as `pathlib` computes `Path(p).name`:
the last slash-separated component, skipping empty and "." components. -/
def pathName (p : String) : String :=
  String.mk (((pySplit p.toList ['/']).filter
    (fun s => !(s.isEmpty) && !(s == ['.']))).getLastD [])

/-- Splits a character list at its last '.', returning the parts before and
after it; `none` when there is no dot. -/
def lastDotSplit : List Char → Option (List Char × List Char)
  | [] => none
  | c :: rest =>
    match lastDotSplit rest with
    | some pq => some (c :: pq.1, pq.2)
    | none => if c = '.' then some ([], rest) else none

/-- `Path(p).suffix` of pathlib: the extension of the final component,
empty when the last dot is the first character of the name or its last. -/
def pathSuffix (p : String) : String :=
  let name := (pathName p).toList
  match lastDotSplit name with
  | some pq =>
    if 0 < pq.1.length && 0 < pq.2.length then String.mk ('.' :: pq.2) else ""
  | none => ""

/-- The base64 alphabet. -/
def b64Chars : List Char :=
  "ABCDEFGHIJKLMNOPQRSTUVWXYZabcdefghijklmnopqrstuvwxyz0123456789+/".toList

/-- One base64 digit. -/
def b64Char (n : Nat) : Char := b64Chars.getD n 'A'

/-- Standard base64 of a byte list, with '=' padding
(`base64.b64encode`); bytes are reduced mod 256. -/
def base64Encode : List Nat → String
  | [] => ""
  | [a] =>
    let x := a % 256
    String.mk [b64Char (x / 4), b64Char (x % 4 * 16), '=', '=']
  | [a, b] =>
    let x := a % 256
    let y := b % 256
    String.mk [b64Char (x / 4), b64Char (x % 4 * 16 + y / 16), b64Char (y % 16 * 4), '=']
  | a :: b :: c :: rest =>
    let x := a % 256
    let y := b % 256
    let z := c % 256
    String.mk [b64Char (x / 4), b64Char (x % 4 * 16 + y / 16),
      b64Char (y % 16 * 4 + z / 64), b64Char (z % 64)] ++ base64Encode rest

/-- What `inspect_slide` returns when it does not raise: an inline image
(`ImageContent(type="image", data=..., mimeType=...)`), a status string, or a
caught exception object returned as-is. -/
inductive SlideResult where
  | image (data mimeType : String)
  | msg (s : String)
  | exn (e : PyExn)
deriving DecidableEq

/-- Environment of one `inspect_slide` call. `absolute` is
`Path(html_file).absolute()`; `pathExists` is `Path.exists`; `convert` is
`convert_html_to_pptx(html_file, aspect_ratio)` (repository code outside
this tree, abstracted as an oracle producing the pptx path or raising);
`rasterize` is `ppt_to_images(pptx, tmp_dir)`; `outputExists` tells whether
`tmp_dir/slide_0001.jpg` exists afterwards, and `imageBytes` its bytes. -/
structure SlideEnv where
  absolute : String → String
  pathExists : String → Bool
  convert : String → String → Except PyExn String
  rasterize : String → Except PyExn Unit
  outputExists : Bool
  imageBytes : List Nat

/-- `inspect_slide(html_file, aspect_ratio)`.  The body after validation is
wrapped in `try ... except Exception as e: return e`, so exceptions of the
conversion and rasterisation steps are caught and the exception object is
returned as the value. -/
def inspect_slide (env : SlideEnv) (html_file aspect_ratio : String) :
    Except PyExn SlideResult :=
  let hf := env.absolute html_file
  if !(env.pathExists hf && pathSuffix hf == ".html") then
    .ok (.msg ("HTML path " ++ hf ++ " does not exist or is not an HTML file"))
  else if !(["widescreen", "normal", "A1"].contains aspect_ratio) then
    .ok (.msg "aspect_ratio should be one of 'widescreen', 'normal', 'A1'")
  else
    match env.convert hf aspect_ratio with
    | .error e => .ok (.exn e)
    | .ok pptx =>
      match env.rasterize pptx with
      | .error e => .ok (.exn e)
      | .ok _ =>
        if !env.outputExists then
          .ok (.msg "Slide inspection failed: PPTX to image conversion produced no output.")
        else
          .ok (.image ("data:image/jpeg;base64," ++ base64Encode env.imageBytes)
            "image/jpeg")

/- ---------------------------------------------------------------------
Manuscript inspector: inspect_manuscript
--------------------------------------------------------------------- -/

/-- The pages of a manuscript: split the whole document on the literal
delimiter "\n---\n" and keep the segments that are not pure whitespace
(`[p for p in markdown.split("\n---\n") if p.strip()]`). -/
def pagesOf (doc : String) : List String :=
  ((pySplit doc.toList ("\n---\n".toList)).map String.mk).filter
    (fun p => !(p.toList.all isPyWs))

/-- Existence of a match of the lazy group `(.*?)\)` of Python `re` (with `.`
not matching a newline): is there a newline-free prefix followed by ')'. -/
def closeNoNl : List Char → Bool
  | [] => false
  | c :: rest =>
    if c = ')' then true
    else if c = '\n' then false
    else closeNoNl rest

/-- Does `u` begin with `https?://` followed by a lazy `.*?` and ')'
(the tail of the external-image pattern). -/
def startsHttpUrl : List Char → Bool
  | 'h' :: 't' :: 't' :: 'p' :: rest =>
    match rest with
    | 's' :: ':' :: '/' :: '/' :: v => closeNoNl v
    | ':' :: '/' :: '/' :: v => closeNoNl v
    | _ => false
  | _ => false

/-- After the ']' of `!\[.*?\]`, does '(' and an http(s) URL with its closing
')' follow. -/
def parenUrl : List Char → Bool
  | [] => false
  | c :: u => c = '(' && startsHttpUrl u

/-- Existence of `.*?\]\(https?://.*?\)` from the start of `t`: scans the lazy
label, which may not contain a newline, for a "](" continuation carrying an
http(s) URL. -/
def extFromLabel : List Char → Bool
  | [] => false
  | c :: rest =>
    if c = ']' then parenUrl rest || extFromLabel rest
    else if c = '\n' then false
    else extFromLabel rest

/-- After a '!', does "[" and the rest of the external-image pattern follow. -/
def afterBang : List Char → Bool
  | [] => false
  | b :: t => b = '[' && extFromLabel t

/-- `re.search(r"!\[.*?\]\(https?://.*?\)", page) is not None`: does the
external-image pattern match anywhere in the page. -/
def hasExternal : List Char → Bool
  | [] => false
  | c :: rest => (c = '!' && afterBang rest) || hasExternal rest

/-- The lazy group `(.*?)\)` of `!\[(.*?)\]\((.*?)\)`: the shortest
newline-free prefix followed by ')', with the rest after the ')'. -/
def lazyClose : List Char → Option (List Char × List Char)
  | [] => none
  | c :: rest =>
    if c = ')' then some ([], rest)
    else if c = '\n' then none
    else (lazyClose rest).map (fun p => (c :: p.1, p.2))

/-- After a ']': match the literal '(' and then the lazy URL group. -/
def parenClose : List Char → Option (List Char × List Char)
  | [] => none
  | c :: u => if c = '(' then lazyClose u else none

/-- The lazy label group `(.*?)\]\(` with the rest of the pattern: from `t`,
the shortest newline-free label `a` such that "](" follows and the URL
group then closes, with the url characters and the rest after the match.
Backtracking of the lazy quantifier is the recursion on a failed
continuation. -/
def lazyLabel : List Char → Option (List Char × List Char × List Char)
  | [] => none
  | c :: rest =>
    if c = ']' then
      match parenClose rest with
      | some br => some ([], br.1, br.2)
      | none => (lazyLabel rest).map (fun t => (c :: t.1, t.2.1, t.2.2))
    else if c = '\n' then none
    else (lazyLabel rest).map (fun t => (c :: t.1, t.2.1, t.2.2))

/-- A match of `!\[(.*?)\]\((.*?)\)` anchored at the start of `s`:
`(label, local_path, rest after the match)`. -/
def matchImgAt : List Char → Option (List Char × List Char × List Char)
  | '!' :: '[' :: t => lazyLabel t
  | _ => none

/-- `re.finditer(r"!\[(.*?)\]\((.*?)\)", page)`: scan left to right, emit each
match's groups, resume after the matched text.  `fuel = s.length` is never
exhausted since every step consumes at least one character. -/
def findIterAux : Nat → List Char → List (List Char × List Char)
  | 0, _ => []
  | _ + 1, [] => []
  | fuel + 1, c :: rest =>
    match matchImgAt (c :: rest) with
    | some abr => (abr.1, abr.2.1) :: findIterAux fuel abr.2.2
    | none => findIterAux fuel rest

/-- All image-reference matches of a page, in order, as `(label, local_path)`. -/
def findIter (s : List Char) : List (List Char × List Char) :=
  findIterAux s.length s

/-- The success dictionary of `inspect_manuscript`: a `defaultdict(list)` into
which `page_id` and `page_content` are written, and whose "warnings" entry is
created at the first `append`.  `warnings = none` models the key being
absent. -/
structure PageData where
  page_id : String
  page_content : String
  warnings : Option (List String)
deriving DecidableEq

/-- `result["warnings"].append(w)` on the defaultdict: a first append creates
the entry as `[w]`. -/
def addWarning (r : PageData) (w : String) : PageData :=
  { r with warnings := some (r.warnings.getD [] ++ [w]) }

/-- The warnings as the caller observes them (the list under the "warnings"
key, empty when the key is absent). -/
def warnList (r : PageData) : List String :=
  r.warnings.getD []

/-- "External image links detected, ..." -/
def extWarning : String :=
  "External image links detected, please downloading and replace them with local paths."

/-- "Image file does not exist: ..." -/
def missingWarning (local_path : List Char) : String :=
  "Image file does not exist: " ++ String.mk local_path ++
    ", please check if there is a format error or file missing."

/-- "Image file ... is missing an alt text label; ..." -/
def emptyLabelWarning (local_path : List Char) : String :=
  "Image file " ++ String.mk local_path ++
    " is missing an alt text label; please add a descriptive label about the image's type, purpose, and content for better accessibility."

/-- "Image file ...:... is used ... times in the document, ..." -/
def dupWarning (label local_path : List Char) (count : Nat) : String :=
  "Image file " ++ String.mk label ++ ":" ++ String.mk local_path ++ " is used " ++
    toString count ++ " times in the document, please check if it's an appropriate usage."

/-- The fourth validation's error text of `inspect_manuscript`. -/
def pageExceedsNote : String :=
  "Page ID exceeds the number of pages in the document. You could view full content using `read_file` to see if format error happened."

/-- The body of the `for match in re.finditer(...)` loop of
`inspect_manuscript`: the existence check on the referenced path, the
alt-text check on the label, and the whole-document occurrence count. -/
def matchChecks (fs : FS) (doc : List Char) (r : PageData) (m : List Char × List Char) :
    PageData :=
  let r1 := if (fs (String.mk m.2)).isSome then r else addWarning r (missingWarning m.2)
  let count := pyCount doc m.2
  let r2 := if m.1.all isPyWs then addWarning r1 (emptyLabelWarning m.2) else r1
  if count = 1 then r2 else addWarning r2 (dupWarning m.1 m.2 count)

/-- The warnings one loop iteration appends, in order. -/
def matchWarnList (fs : FS) (doc : List Char) (m : List Char × List Char) : List String :=
  (if (fs (String.mk m.2)).isSome then [] else [missingWarning m.2]) ++
  (if m.1.all isPyWs then [emptyLabelWarning m.2] else []) ++
  (if pyCount doc m.2 = 1 then [] else [dupWarning m.1 m.2 (pyCount doc m.2)])

/-- The success-path result of `inspect_manuscript`: page position, raw page
text, then the external-link check and the per-reference loop. -/
def buildPage (fs : FS) (markdown : String) (page_id : Int) : PageData :=
  let pages := pagesOf markdown
  let page := pages.getD (page_id - 1).toNat ""
  let base : PageData :=
    { page_id := pad2 page_id.toNat ++ "/" ++ pad2 pages.length
      page_content := page
      warnings := none }
  let r1 := if hasExternal page.toList then addWarning base extWarning else base
  (findIter page.toList).foldl (matchChecks fs markdown.toList) r1

/-- The dictionary `inspect_manuscript` returns: either `{"error": msg}` or
the success dictionary. -/
inductive ManuscriptResult where
  | err (msg : String)
  | page (data : PageData)
deriving DecidableEq

/-- The keys of the returned dictionary, in insertion order. -/
def dictKeys : ManuscriptResult → List String
  | .err _ => ["error"]
  | .page d =>
    ["page_id", "page_content"] ++
      (match d.warnings with
       | none => []
       | some _ => ["warnings"])

/-- `inspect_manuscript(md_file, page_id)`: the four validations in source
order, then the success dictionary.  No operation of its body raises under
the filesystem model, so the outer `Except` layer is always `.ok`. -/
def inspect_manuscript (fs : FS) (md_file : String) (page_id : Int) :
    Except PyExn ManuscriptResult :=
  match fs md_file with
  | none => .ok (.err ("file does not exist: " ++ md_file))
  | some markdown =>
    if !(strEndsWith (lowerStr md_file) ".md") then
      .ok (.err ("file is not a markdown file: " ++ md_file))
    else if page_id < 1 then
      .ok (.err "Page ID should be a positive integer starting from 1.")
    else if ¬ ((pagesOf markdown).length : Int) ≥ page_id then
      .ok (.err pageExceedsNote)
    else
      .ok (.page (buildPage fs markdown page_id))

/- ---------------------------------------------------------------------
Helper lemmas
--------------------------------------------------------------------- -/

lemma ne_of_obs {α : Type} (g : String → α) {s t : String} (h : g s ≠ g t) : s ≠ t :=
  fun e => h (congrArg g e)

lemma obsFront (k : Nat) (c : Char) (a s : String) (h : a.data[k]? = some c) :
    (a ++ s).data[k]? = some c := by
  have hk : k < a.data.length := (List.getElem?_eq_some.mp h).1
  calc (a ++ s).data[k]? = (a.data ++ s.data)[k]? := rfl
    _ = a.data[k]? := List.getElem?_append_left hk
    _ = some c := h

lemma obsRev (k : Nat) (c : Char) (a s : String) (h : s.data.reverse[k]? = some c) :
    (a ++ s).data.reverse[k]? = some c := by
  have hk : k < s.data.reverse.length := (List.getElem?_eq_some.mp h).1
  calc (a ++ s).data.reverse[k]?
      = (s.data.reverse ++ a.data.reverse)[k]? := by
        rw [show (a ++ s).data = a.data ++ s.data from rfl, List.reverse_append]
    _ = s.data.reverse[k]? := List.getElem?_append_left hk
    _ = some c := h

lemma ne_append_append (k : Nat) (c d : Char) (a b s t : String)
    (ha : a.data[k]? = some c) (hb : b.data[k]? = some d) (hcd : c ≠ d) :
    a ++ s ≠ b ++ t :=
  ne_of_obs (fun z => z.data[k]?)
    (by show (a ++ s).data[k]? ≠ (b ++ t).data[k]?
        rw [obsFront k c a s ha, obsFront k d b t hb]
        exact fun h => hcd (Option.some.inj h))

lemma ne_append_const (k : Nat) (c d : Char) (a s t : String)
    (ha : a.data[k]? = some c) (ht : t.data[k]? = some d) (hcd : c ≠ d) :
    a ++ s ≠ t :=
  ne_of_obs (fun z => z.data[k]?)
    (by show (a ++ s).data[k]? ≠ t.data[k]?
        rw [obsFront k c a s ha, ht]
        exact fun h => hcd (Option.some.inj h))

lemma ne_rev_append (k : Nat) (c d : Char) (a b s t : String)
    (hs : s.data.reverse[k]? = some c) (ht : t.data.reverse[k]? = some d) (hcd : c ≠ d) :
    a ++ s ≠ b ++ t :=
  ne_of_obs (fun z => z.data.reverse[k]?)
    (by show (a ++ s).data.reverse[k]? ≠ (b ++ t).data.reverse[k]?
        rw [obsRev k c a s hs, obsRev k d b t ht]
        exact fun h => hcd (Option.some.inj h))

/- Retry loop lemmas -/

lemma dlLoopAux_len_le (a : Nat → Bool) : ∀ (n i : Nat), (dlLoopAux a i n).1.length ≤ n := by
  intro n
  induction n with
  | zero => intro i; simp [dlLoopAux]
  | succ n ih =>
    intro i
    simp only [dlLoopAux]
    split
    · simp
    · simpa using ih (i + 1)

lemma dlLoopAux_sleeps (a : Nat → Bool) :
    ∀ (n i : Nat), (dlLoopAux a i n).1 = List.range' i (dlLoopAux a i n).1.length := by
  intro n
  induction n with
  | zero => intro i; simp [dlLoopAux]
  | succ n ih =>
    intro i
    simp only [dlLoopAux]
    split
    · simp [List.range']
    · simp only [List.length_cons, List.range']
      rw [← ih (i + 1)]

lemma dlLoopAux_find (a : Nat → Bool) :
    ∀ (n i : Nat), (dlLoopAux a i n).2 = (List.range' i n).find? a := by
  intro n
  induction n with
  | zero => intro i; simp [dlLoopAux]
  | succ n ih =>
    intro i
    simp only [dlLoopAux, List.range']
    rw [List.find?_cons]
    split
    · simp_all
    · simp_all [ih (i + 1)]

/- ---------------------------------------------------------------------
Claims about download_file and markdown_table_to_image
--------------------------------------------------------------------- -/

/-- Claim C6: every call to download_file makes at most `retry_times` GET
attempts; the sleeps performed are, in order, exactly 0, 1, 2, ... seconds
(so attempt number i is preceded by a sleep of exactly i seconds); a failed
attempt does not abort the loop — the loop's outcome is the first index at
which an attempt succeeds, scanning all indices in order; and when every
attempt fails the call returns the failure string, not an exception and not
a success message. -/
theorem download_file_retry_behavior (env : DlEnv) (retry_times : Nat)
    (url output_path : String) :
    (dlLoop env.attempt retry_times).1.length ≤ retry_times ∧
    (dlLoop env.attempt retry_times).1 =
      List.range ((dlLoop env.attempt retry_times).1.length) ∧
    (dlLoop env.attempt retry_times).2 = (List.range retry_times).find? env.attempt ∧
    ((List.range retry_times).find? env.attempt = none →
      download_file env retry_times url output_path =
        .ok ("Failed to download file from " ++ url)) := by
  refine ⟨dlLoopAux_len_le env.attempt retry_times 0, ?_, ?_, ?_⟩
  · have h := dlLoopAux_sleeps env.attempt retry_times 0
    rw [List.range_eq_range']
    exact h
  · have h := dlLoopAux_find env.attempt retry_times 0
    rw [List.range_eq_range']
    exact h
  · intro h
    have h2 : (dlLoop env.attempt retry_times).2 = none := by
      show (dlLoopAux env.attempt 0 retry_times).2 = none
      rw [dlLoopAux_find env.attempt retry_times 0, ← List.range_eq_range']
      exact h
    simp [download_file, h2]

/-- Claim C6 witness: with two attempts that both fail, download_file returns
the failure string. -/
theorem download_file_retry_behavior_witness :
    download_file { attempt := fun _ => false, decode := .error { msg := "x" } } 2 "u" "p" =
      .ok ("Failed to download file from u") :=
  (download_file_retry_behavior
    { attempt := fun _ => false, decode := .error { msg := "x" } } 2 "u" "p").2.2.2 (by decide)

/-- Claim C7: on a successful download whose output path has a recognised
image extension (case-insensitively), the success message reports the decoded
width and height; when decoding raises, the call returns the distinct
invalid-image message, which is never equal to the generic download-failure
string. -/
theorem download_file_image_resolution (env : DlEnv) (n : Nat) (url p : String)
    (hsucc : (dlLoop env.attempt n).2.isSome = true)
    (hext : hasImageExt p = true) :
    (∀ w h, env.decode = .ok (w, h) →
      download_file env n url p =
        .ok ("File downloaded to " ++ p ++ " (resolution: " ++ toString w ++ "x" ++
          toString h ++ ")")) ∧
    (∀ e, env.decode = .error e →
      download_file env n url p =
        .ok ("The provided URL does not point to a valid image file: " ++ e.msg) ∧
      "The provided URL does not point to a valid image file: " ++ e.msg ≠
        "Failed to download file from " ++ url) := by
  obtain ⟨i, hi⟩ := Option.isSome_iff_exists.mp hsucc
  constructor
  · intro w h hd
    simp [download_file, hi, hext, hd]
  · intro e hd
    refine ⟨by simp [download_file, hi, hext, hd], ?_⟩
    exact ne_append_append 0 'T' 'F' _ _ _ _ (by decide) (by decide) (by decide)

/-- Claim C7 witness: a one-attempt success saving to "a.png" with decoded
size 2x3 reports that resolution. -/
theorem download_file_image_resolution_witness :
    download_file { attempt := fun _ => true, decode := .ok (2, 3) } 1 "u" "a.png" =
      .ok ("File downloaded to a.png (resolution: 2x3)") :=
  ((download_file_image_resolution { attempt := fun _ => true, decode := .ok (2, 3) }
    1 "u" "a.png" (by decide) (by decide)).1 2 3 rfl)

/-- Claim C8: markdown_table_to_image validates nothing — for every table,
path and css (the statement quantifies over all of them), as soon as the
rasteriser call returns, the result is the fixed confirmation string, which
ends with the exact target path. -/
theorem markdown_table_to_image_confirmation (env : TblEnv) (mt path css : String)
    (h : env.render (env.toHtml mt) path css = .ok ()) :
    markdown_table_to_image env mt path css =
      .ok ("Markdown table converted to image and saved to " ++ path) ∧
    ∃ pre, "Markdown table converted to image and saved to " ++ path = pre ++ path :=
  ⟨by simp [markdown_table_to_image, h], ⟨_, rfl⟩⟩

/-- Claim C8 witness: a single-row table with empty css, with a rasteriser
that returns, yields the confirmation message carrying the target path. -/
theorem markdown_table_to_image_confirmation_witness :
    markdown_table_to_image { toHtml := fun s => s, render := fun _ _ _ => .ok () }
      "| a |" "/tmp/t.png" "" =
      .ok "Markdown table converted to image and saved to /tmp/t.png" :=
  (markdown_table_to_image_confirmation
    { toHtml := fun s => s, render := fun _ _ _ => .ok () } "| a |" "/tmp/t.png" "" rfl).1

/- ---------------------------------------------------------------------
Claims about inspect_slide and the exception policy
--------------------------------------------------------------------- -/

/-- Claim C9: inspect_slide returns an error string when the path does not
exist or is not an .html file, or when the aspect ratio is not one of the
three options; returns the descriptive failure string when rasterisation
produces no output file; on success returns the image bytes base64-encoded
under the data:image/jpeg;base64, prefix with MIME type image/jpeg; and any
exception of the conversion steps is caught and the exception object itself
(constructor `SlideResult.exn`, not its string form) is returned. -/
theorem inspect_slide_behavior (env : SlideEnv) (hf ar : String) :
    (¬ (env.pathExists (env.absolute hf) = true ∧
        pathSuffix (env.absolute hf) = ".html") →
      inspect_slide env hf ar =
        .ok (.msg ("HTML path " ++ env.absolute hf ++
          " does not exist or is not an HTML file"))) ∧
    (env.pathExists (env.absolute hf) = true → pathSuffix (env.absolute hf) = ".html" →
      ar ∉ (["widescreen", "normal", "A1"] : List String) →
      inspect_slide env hf ar =
        .ok (.msg "aspect_ratio should be one of 'widescreen', 'normal', 'A1'")) ∧
    (env.pathExists (env.absolute hf) = true → pathSuffix (env.absolute hf) = ".html" →
      ar ∈ (["widescreen", "normal", "A1"] : List String) →
      (∀ e, env.convert (env.absolute hf) ar = .error e →
        inspect_slide env hf ar = .ok (.exn e)) ∧
      (∀ p e, env.convert (env.absolute hf) ar = .ok p → env.rasterize p = .error e →
        inspect_slide env hf ar = .ok (.exn e)) ∧
      (∀ p, env.convert (env.absolute hf) ar = .ok p → env.rasterize p = .ok () →
        env.outputExists = false →
        inspect_slide env hf ar =
          .ok (.msg "Slide inspection failed: PPTX to image conversion produced no output.")) ∧
      (∀ p, env.convert (env.absolute hf) ar = .ok p → env.rasterize p = .ok () →
        env.outputExists = true →
        inspect_slide env hf ar =
          .ok (.image ("data:image/jpeg;base64," ++ base64Encode env.imageBytes)
            "image/jpeg"))) := by
  refine ⟨?_, ?_, ?_⟩
  · intro h
    have hb : (env.pathExists (env.absolute hf) &&
        (pathSuffix (env.absolute hf) == ".html")) = false := by
      cases hA : env.pathExists (env.absolute hf) <;>
        cases hB : pathSuffix (env.absolute hf) == ".html" <;> simp_all
    simp [inspect_slide, hb]
  · intro hA hB har
    have hb : (env.pathExists (env.absolute hf) &&
        (pathSuffix (env.absolute hf) == ".html")) = true := by simp [hA, hB]
    have h3 : ¬ ar = "widescreen" ∧ ¬ ar = "normal" ∧ ¬ ar = "A1" := by
      simpa using har
    simp [inspect_slide, hb, h3.1, h3.2.1, h3.2.2]
  · intro hA hB har
    have hb : (env.pathExists (env.absolute hf) &&
        (pathSuffix (env.absolute hf) == ".html")) = true := by simp [hA, hB]
    have hd : ar = "widescreen" ∨ ar = "normal" ∨ ar = "A1" := by
      simpa using har
    refine ⟨?_, ?_, ?_, ?_⟩
    · intro e he
      simp [inspect_slide, hb, he] <;> (rcases hd with h | h | h <;> simp [h])
    · intro p e hp he
      simp [inspect_slide, hb, hp, he] <;> (rcases hd with h | h | h <;> simp [h])
    · intro p hp hr ho
      simp [inspect_slide, hb, hp, hr, ho] <;> (rcases hd with h | h | h <;> simp [h])
    · intro p hp hr ho
      simp [inspect_slide, hb, hp, hr, ho] <;> (rcases hd with h | h | h <;> simp [h])

/-- Claim C9 witness: a nonexistent path yields the path-validation error
string before any conversion. -/
theorem inspect_slide_behavior_witness :
    inspect_slide
      { absolute := fun s => s, pathExists := fun _ => false,
        convert := fun _ _ => .ok "p", rasterize := fun _ => .ok (),
        outputExists := true, imageBytes := [] } "x" "widescreen" =
      .ok (.msg "HTML path x does not exist or is not an HTML file") :=
  (inspect_slide_behavior
    { absolute := fun s => s, pathExists := fun _ => false,
      convert := fun _ _ => .ok "p", rasterize := fun _ => .ok (),
      outputExists := true, imageBytes := [] } "x" "widescreen").1 (by simp)

/-- Claim C1 counterexample: the claim says no tool ever lets an exception
propagate, but markdown_table_to_image has no exception handling at all — on
this concrete call whose rasteriser raises, the exception escapes to the
caller. -/
theorem markdown_table_to_image_raises_cex :
    markdown_table_to_image
      { toHtml := fun s => s, render := fun _ _ _ => .error { msg := "rasterizer failure" } }
      "| a |" "/tmp/table.png" "" = .error { msg := "rasterizer failure" } := rfl

/-- Claim C1 (amended): download_file, inspect_slide and inspect_manuscript
always return a value — every failure path of theirs degrades to a returned
value — but markdown_table_to_image propagates an exception of the external
rasteriser to the caller: it raises exactly when the rasteriser raises. -/
theorem tool_exception_policy_amended (denv : DlEnv) (n : Nat) (u o : String)
    (senv : SlideEnv) (hf ar : String) (fs : FS) (f : String) (pid : Int)
    (tenv : TblEnv) (mt pth css : String) :
    returnsValue (download_file denv n u o) = true ∧
    returnsValue (inspect_slide senv hf ar) = true ∧
    returnsValue (inspect_manuscript fs f pid) = true ∧
    (∀ e, markdown_table_to_image tenv mt pth css = .error e ↔
      tenv.render (tenv.toHtml mt) pth css = .error e) := by
  refine ⟨?_, ?_, ?_, ?_⟩
  · simp only [download_file]
    split
    · rfl
    · split
      · split
        · rfl
        · rfl
      · rfl
  · simp only [inspect_slide]
    split
    · rfl
    · split
      · rfl
      · split
        · rfl
        · split
          · rfl
          · split
            · rfl
            · rfl
  · cases hm : fs f with
    | none => simp [inspect_manuscript, hm, returnsValue]
    | some doc =>
      unfold inspect_manuscript
      rw [hm]
      split
      · rfl
      · split
        · rfl
        · split
          · rfl
          · split
            · rfl
            · rfl
  · intro e
    cases h : tenv.render (tenv.toHtml mt) pth css with
    | error e2 => simp [markdown_table_to_image, h]
    | ok v => cases v; simp [markdown_table_to_image, h]

/-- Claim C1 (amended) witness: with an always-failing fetcher environment,
download_file still returns a value. -/
theorem tool_exception_policy_amended_witness :
    returnsValue (download_file { attempt := fun _ => false, decode := .ok (1, 1) }
      1 "u" "o") = true :=
  (tool_exception_policy_amended { attempt := fun _ => false, decode := .ok (1, 1) }
    1 "u" "o"
    { absolute := fun s => s, pathExists := fun _ => false,
      convert := fun _ _ => .ok "p", rasterize := fun _ => .ok (),
      outputExists := true, imageBytes := [] } "x" "widescreen"
    (fun _ => none) "a.md" 1
    { toHtml := fun s => s, render := fun _ _ _ => .ok () } "t" "p" "c").1

/- ---------------------------------------------------------------------
Manuscript lemmas
--------------------------------------------------------------------- -/

lemma warnList_addWarning (r : PageData) (w : String) :
    warnList (addWarning r w) = warnList r ++ [w] := by
  simp [warnList, addWarning]

lemma matchChecks_page_id (fs : FS) (doc : List Char) (r : PageData)
    (m : List Char × List Char) : (matchChecks fs doc r m).page_id = r.page_id := by
  simp only [matchChecks, addWarning]
  split_ifs <;> rfl

lemma matchChecks_page_content (fs : FS) (doc : List Char) (r : PageData)
    (m : List Char × List Char) :
    (matchChecks fs doc r m).page_content = r.page_content := by
  simp only [matchChecks, addWarning]
  split_ifs <;> rfl

lemma matchChecks_warnList (fs : FS) (doc : List Char) (r : PageData)
    (m : List Char × List Char) :
    warnList (matchChecks fs doc r m) = warnList r ++ matchWarnList fs doc m := by
  simp only [matchChecks, matchWarnList]
  split_ifs <;> simp [warnList_addWarning]

lemma matchChecks_clean (fs : FS) (doc : List Char) (r : PageData)
    (m : List Char × List Char)
    (h1 : (fs (String.mk m.2)).isSome = true) (h2 : m.1.all isPyWs = false)
    (h3 : pyCount doc m.2 = 1) : matchChecks fs doc r m = r := by
  simp [matchChecks, h1, h2, h3]

lemma foldl_matchChecks_page_id (fs : FS) (doc : List Char) :
    ∀ (ms : List (List Char × List Char)) (r : PageData),
      (ms.foldl (matchChecks fs doc) r).page_id = r.page_id := by
  intro ms
  induction ms with
  | nil => intro r; rfl
  | cons m ms ih =>
    intro r
    rw [List.foldl_cons, ih, matchChecks_page_id]

lemma foldl_matchChecks_page_content (fs : FS) (doc : List Char) :
    ∀ (ms : List (List Char × List Char)) (r : PageData),
      (ms.foldl (matchChecks fs doc) r).page_content = r.page_content := by
  intro ms
  induction ms with
  | nil => intro r; rfl
  | cons m ms ih =>
    intro r
    rw [List.foldl_cons, ih, matchChecks_page_content]

lemma foldl_matchChecks_warnList (fs : FS) (doc : List Char) :
    ∀ (ms : List (List Char × List Char)) (r : PageData),
      warnList (ms.foldl (matchChecks fs doc) r) =
        warnList r ++ ms.flatMap (matchWarnList fs doc) := by
  intro ms
  induction ms with
  | nil => intro r; simp
  | cons m ms ih =>
    intro r
    rw [List.foldl_cons, ih, matchChecks_warnList, List.flatMap_cons, List.append_assoc]

lemma foldl_matchChecks_clean (fs : FS) (doc : List Char) :
    ∀ (ms : List (List Char × List Char)) (r : PageData),
      (∀ m ∈ ms, (fs (String.mk m.2)).isSome = true ∧ m.1.all isPyWs = false ∧
        pyCount doc m.2 = 1) →
      ms.foldl (matchChecks fs doc) r = r := by
  intro ms
  induction ms with
  | nil => intro r _; rfl
  | cons m ms ih =>
    intro r h
    obtain ⟨h1, h2, h3⟩ := h m (List.mem_cons_self m ms)
    rw [List.foldl_cons, matchChecks_clean fs doc r m h1 h2 h3]
    exact ih r (fun x hx => h x (List.mem_cons_of_mem m hx))

lemma buildPage_page_id (fs : FS) (doc : String) (pid : Int) :
    (buildPage fs doc pid).page_id =
      pad2 pid.toNat ++ "/" ++ pad2 (pagesOf doc).length := by
  simp only [buildPage]
  rw [foldl_matchChecks_page_id]
  split_ifs <;> rfl

lemma buildPage_page_content (fs : FS) (doc : String) (pid : Int) :
    (buildPage fs doc pid).page_content = (pagesOf doc).getD (pid - 1).toNat "" := by
  simp only [buildPage]
  rw [foldl_matchChecks_page_content]
  split_ifs <;> rfl

lemma buildPage_warnList (fs : FS) (doc : String) (pid : Int) :
    warnList (buildPage fs doc pid) =
      (if hasExternal ((pagesOf doc).getD (pid - 1).toNat "").toList then [extWarning]
        else []) ++
      (findIter ((pagesOf doc).getD (pid - 1).toNat "").toList).flatMap
        (matchWarnList fs doc.toList) := by
  simp only [buildPage]
  rw [foldl_matchChecks_warnList]
  split_ifs with h <;> simp [h, addWarning, warnList]

lemma inspect_manuscript_success (fs : FS) (f : String) (pid : Int) (doc : String)
    (h1 : fs f = some doc) (h2 : strEndsWith (lowerStr f) ".md" = true)
    (h3 : 1 ≤ pid) (h4 : pid ≤ ((pagesOf doc).length : Int)) :
    inspect_manuscript fs f pid = .ok (.page (buildPage fs doc pid)) := by
  unfold inspect_manuscript
  rw [h1]
  simp only [h2, Bool.not_true]
  rw [if_neg (by simp), if_neg (by omega), if_neg (by omega)]

lemma inspect_manuscript_page_inv (fs : FS) (f : String) (pid : Int) (doc : String)
    (d : PageData) (h1 : fs f = some doc)
    (h : inspect_manuscript fs f pid = .ok (.page d)) :
    d = buildPage fs doc pid := by
  unfold inspect_manuscript at h
  rw [h1] at h
  split_ifs at h <;> try simp_all
  by_cases h4 : ((pagesOf doc).length : Int) < pid
  · rw [if_pos h4] at h
    simp at h
  · rw [if_neg h4] at h
    simp at h
    exact h.symm

/- Pairwise distinctness of the per-reference warning messages: they end in
different constant text ("...missing.", "...accessibility.", "...usage."). -/

set_option maxRecDepth 8192 in
lemma missingWarning_ne_emptyLabel (lp lq : List Char) :
    missingWarning lp ≠ emptyLabelWarning lq :=
  ne_rev_append 1 'g' 'y' ("Image file does not exist: " ++ String.mk lp)
    ("Image file " ++ String.mk lq)
    ", please check if there is a format error or file missing."
    " is missing an alt text label; please add a descriptive label about the image's type, purpose, and content for better accessibility."
    (by decide) (by decide) (by decide)

set_option maxRecDepth 8192 in
lemma missingWarning_ne_dup (lp lb lq : List Char) (n : Nat) :
    missingWarning lp ≠ dupWarning lb lq n :=
  ne_rev_append 1 'g' 'e' ("Image file does not exist: " ++ String.mk lp)
    ("Image file " ++ String.mk lb ++ ":" ++ String.mk lq ++ " is used " ++ toString n)
    ", please check if there is a format error or file missing."
    " times in the document, please check if it's an appropriate usage."
    (by decide) (by decide) (by decide)

set_option maxRecDepth 8192 in
lemma emptyLabel_ne_dup (lp lb lq : List Char) (n : Nat) :
    emptyLabelWarning lp ≠ dupWarning lb lq n :=
  ne_rev_append 1 'y' 'e' ("Image file " ++ String.mk lp)
    ("Image file " ++ String.mk lb ++ ":" ++ String.mk lq ++ " is used " ++ toString n)
    " is missing an alt text label; please add a descriptive label about the image's type, purpose, and content for better accessibility."
    " times in the document, please check if it's an appropriate usage."
    (by decide) (by decide) (by decide)

lemma mem_matchWarnList_missing (fs : FS) (doc : List Char) (m : List Char × List Char) :
    missingWarning m.2 ∈ matchWarnList fs doc m ↔ (fs (String.mk m.2)).isSome = false := by
  cases hA : (fs (String.mk m.2)).isSome with
  | false => simp [matchWarnList, hA]
  | true =>
    simp only [matchWarnList, hA, if_true]
    split_ifs <;>
      simp [missingWarning_ne_emptyLabel, missingWarning_ne_dup]

lemma mem_matchWarnList_empty (fs : FS) (doc : List Char) (m : List Char × List Char) :
    emptyLabelWarning m.2 ∈ matchWarnList fs doc m ↔ m.1.all isPyWs = true := by
  cases hB : m.1.all isPyWs with
  | true => simp [matchWarnList, hB]
  | false =>
    simp only [matchWarnList, hB]
    split_ifs <;>
      simp_all [(missingWarning_ne_emptyLabel m.2 m.2).symm, emptyLabel_ne_dup]

lemma mem_matchWarnList_dup (fs : FS) (doc : List Char) (m : List Char × List Char) :
    dupWarning m.1 m.2 (pyCount doc m.2) ∈ matchWarnList fs doc m ↔
      ¬ pyCount doc m.2 = 1 := by
  by_cases hC : pyCount doc m.2 = 1
  · simp only [matchWarnList, hC, if_true]
    split_ifs <;>
      simp_all [hC, (missingWarning_ne_dup m.2 m.1 m.2 1).symm,
        (emptyLabel_ne_dup m.2 m.1 m.2 1).symm]
  · simp [matchWarnList, hC]

/- ---------------------------------------------------------------------
Claims about inspect_manuscript
--------------------------------------------------------------------- -/

set_option maxRecDepth 8192 in
/-- Claim C2: the four validations of inspect_manuscript run in source order
(missing file, then extension, then page_id lower bound, then page count),
each failure short-circuits with its own error value, the four error values
are pairwise distinct, a page_id above the page count always yields an error,
and an error dictionary carries only the "error" key — never page_id,
page_content or warnings. -/
theorem inspect_manuscript_validation_order (fs : FS) (f : String) (pid : Int)
    (doc : String) :
    (fs f = none →
      inspect_manuscript fs f pid = .ok (.err ("file does not exist: " ++ f))) ∧
    (fs f = some doc → strEndsWith (lowerStr f) ".md" = false →
      inspect_manuscript fs f pid = .ok (.err ("file is not a markdown file: " ++ f))) ∧
    (fs f = some doc → strEndsWith (lowerStr f) ".md" = true → pid < 1 →
      inspect_manuscript fs f pid =
        .ok (.err "Page ID should be a positive integer starting from 1.")) ∧
    (fs f = some doc → strEndsWith (lowerStr f) ".md" = true → 1 ≤ pid →
      ((pagesOf doc).length : Int) < pid →
      inspect_manuscript fs f pid = .ok (.err pageExceedsNote)) ∧
    (fs f = some doc → ((pagesOf doc).length : Int) < pid →
      ∃ m, inspect_manuscript fs f pid = .ok (.err m)) ∧
    ("file does not exist: " ++ f ≠ "file is not a markdown file: " ++ f) ∧
    ("file does not exist: " ++ f ≠
      "Page ID should be a positive integer starting from 1.") ∧
    ("file does not exist: " ++ f ≠ pageExceedsNote) ∧
    ("file is not a markdown file: " ++ f ≠
      "Page ID should be a positive integer starting from 1.") ∧
    ("file is not a markdown file: " ++ f ≠ pageExceedsNote) ∧
    ("Page ID should be a positive integer starting from 1." ≠ pageExceedsNote) ∧
    (∀ m, inspect_manuscript fs f pid = .ok (.err m) →
      "page_id" ∉ dictKeys (.err m) ∧ "page_content" ∉ dictKeys (.err m) ∧
        "warnings" ∉ dictKeys (.err m)) := by
  refine ⟨?_, ?_, ?_, ?_, ?_, ?_, ?_, ?_, ?_, ?_, ?_, ?_⟩
  · intro h
    simp [inspect_manuscript, h]
  · intro h hB
    unfold inspect_manuscript
    rw [h]
    simp [hB]
  · intro h hB h3
    unfold inspect_manuscript
    rw [h]
    simp only [hB, Bool.not_true]
    rw [if_neg (by simp), if_pos h3]
  · intro h hB h3 h4
    unfold inspect_manuscript
    rw [h]
    simp only [hB, Bool.not_true]
    rw [if_neg (by simp), if_neg (by omega), if_pos (by omega)]
  · intro h h4
    cases hB : strEndsWith (lowerStr f) ".md" with
    | false =>
      exact ⟨"file is not a markdown file: " ++ f,
        by unfold inspect_manuscript; rw [h]; simp [hB]⟩
    | true =>
      by_cases h3 : pid < 1
      · exact ⟨"Page ID should be a positive integer starting from 1.", by
          unfold inspect_manuscript
          rw [h]
          simp only [hB, Bool.not_true]
          rw [if_neg (by simp), if_pos h3]⟩
      · exact ⟨pageExceedsNote, by
          unfold inspect_manuscript
          rw [h]
          simp only [hB, Bool.not_true]
          rw [if_neg (by simp), if_neg h3, if_pos (by omega)]⟩
  · exact ne_append_append 5 'd' 'i' "file does not exist: "
      "file is not a markdown file: " f f (by decide) (by decide) (by decide)
  · exact ne_append_const 0 'f' 'P' "file does not exist: " f
      "Page ID should be a positive integer starting from 1."
      (by decide) (by decide) (by decide)
  · exact ne_append_const 0 'f' 'P' "file does not exist: " f pageExceedsNote
      (by decide) (by decide) (by decide)
  · exact ne_append_const 0 'f' 'P' "file is not a markdown file: " f
      "Page ID should be a positive integer starting from 1."
      (by decide) (by decide) (by decide)
  · exact ne_append_const 0 'f' 'P' "file is not a markdown file: " f pageExceedsNote
      (by decide) (by decide) (by decide)
  · decide
  · intro m _
    refine ⟨?_, ?_, ?_⟩ <;> simp [dictKeys]

/-- Claim C2 witness: on a one-page document, page_id 5 yields the
page-count error. -/
theorem inspect_manuscript_validation_order_witness :
    inspect_manuscript (fun s => if s = "a.md" then some "x" else none) "a.md" 5 =
      .ok (.err pageExceedsNote) :=
  ((inspect_manuscript_validation_order
    (fun s => if s = "a.md" then some "x" else none) "a.md" 5 "x").2.2.2.1)
    rfl (by decide) (by decide) (by decide)

/-- Claim C3: on a document whose pages are exactly two non-whitespace
blocks, inspect_manuscript with page_id 2 succeeds, its page_content is the
second block unchanged, and its page_id field is "02/02"; in general the
page_id field of a successful result is the 1-based index and the page count,
each zero-padded to two digits, joined by "/". -/
theorem inspect_manuscript_two_page_fields :
    (∀ (fs : FS) (f doc b1 b2 : String), fs f = some doc →
      strEndsWith (lowerStr f) ".md" = true → pagesOf doc = [b1, b2] →
      inspect_manuscript fs f 2 = .ok (.page (buildPage fs doc 2)) ∧
      (buildPage fs doc 2).page_content = b2 ∧
      (buildPage fs doc 2).page_id = "02/02") ∧
    (∀ (fs : FS) (f doc : String) (pid : Int), fs f = some doc →
      strEndsWith (lowerStr f) ".md" = true → 1 ≤ pid →
      pid ≤ ((pagesOf doc).length : Int) →
      inspect_manuscript fs f pid = .ok (.page (buildPage fs doc pid)) ∧
      (buildPage fs doc pid).page_id =
        pad2 pid.toNat ++ "/" ++ pad2 (pagesOf doc).length) := by
  constructor
  · intro fs f doc b1 b2 h1 h2 hp
    refine ⟨inspect_manuscript_success fs f 2 doc h1 h2 (by omega) (by rw [hp]; simp),
      ?_, ?_⟩
    · rw [buildPage_page_content, hp]
      rfl
    · rw [buildPage_page_id, hp]
      simp only [List.length_cons, List.length_nil]
      decide
  · intro fs f doc pid h1 h2 h3 h4
    exact ⟨inspect_manuscript_success fs f pid doc h1 h2 h3 h4,
      buildPage_page_id fs doc pid⟩

/-- Claim C3 witness: the document "X\n---\nY" has pages ["X", "Y"]; reading
page 2 returns content "Y" and page_id "02/02". -/
theorem inspect_manuscript_two_page_fields_witness :
    inspect_manuscript (fun s => if s = "m.md" then some "X\n---\nY" else none)
      "m.md" 2 =
      .ok (.page (buildPage (fun s => if s = "m.md" then some "X\n---\nY" else none)
        "X\n---\nY" 2)) ∧
    (buildPage (fun s => if s = "m.md" then some "X\n---\nY" else none)
      "X\n---\nY" 2).page_content = "Y" ∧
    (buildPage (fun s => if s = "m.md" then some "X\n---\nY" else none)
      "X\n---\nY" 2).page_id = "02/02" :=
  inspect_manuscript_two_page_fields.1
    (fun s => if s = "m.md" then some "X\n---\nY" else none) "m.md"
    "X\n---\nY" "X" "Y" rfl (by decide) (by decide)

/-- Claim C4: on a successfully inspected page, the warnings list is the
external-image warning (present exactly when the external-image pattern
matches somewhere in the page) followed by the per-reference warnings of the
finditer matches in match order, concatenated without any deduplication; in
particular a page containing an external image reference always carries the
external-image warning. -/
theorem inspect_manuscript_external_image_warning (fs : FS) (f : String) (pid : Int)
    (doc : String) (d : PageData)
    (h1 : fs f = some doc)
    (h2 : inspect_manuscript fs f pid = .ok (.page d)) :
    warnList d =
      (if hasExternal d.page_content.toList then [extWarning] else []) ++
      (findIter d.page_content.toList).flatMap (matchWarnList fs doc.toList) ∧
    (hasExternal d.page_content.toList = true → extWarning ∈ warnList d) := by
  have hd := inspect_manuscript_page_inv fs f pid doc d h1 h2
  subst hd
  constructor
  · rw [buildPage_page_content]
    exact buildPage_warnList fs doc pid
  · intro hx
    rw [buildPage_page_content] at hx
    rw [buildPage_warnList, if_pos hx]
    exact List.mem_append_left _ (List.mem_singleton.mpr rfl)

/-- Claim C4 witness: a page with an http image reference carries the
external-image warning. -/
theorem inspect_manuscript_external_image_warning_witness :
    extWarning ∈ warnList (buildPage
      (fun s => if s = "m.md" then some "see ![p](http://e/x.png) end" else none)
      "see ![p](http://e/x.png) end" 1) :=
  (inspect_manuscript_external_image_warning
    (fun s => if s = "m.md" then some "see ![p](http://e/x.png) end" else none)
    "m.md" 1 "see ![p](http://e/x.png) end"
    (buildPage (fun s => if s = "m.md" then some "see ![p](http://e/x.png) end" else none)
      "see ![p](http://e/x.png) end" 1) rfl rfl).2 (by decide)

/-- Claim C5: for every image reference the finditer loop visits on the
successfully inspected page, the loop appends the missing-file warning iff
the referenced path does not exist, the empty-label warning iff the label is
empty or whitespace, and the duplication warning iff the occurrence count of
the path over the whole document differs from 1 — and the overall warnings
list of the result is exactly these per-match lists in match order after the
optional external warning (so a path duplicated elsewhere in the document is
flagged even when the current page holds only one occurrence). -/
theorem inspect_manuscript_local_image_checks (fs : FS) (f : String) (pid : Int)
    (doc : String) (d : PageData)
    (h1 : fs f = some doc)
    (h2 : inspect_manuscript fs f pid = .ok (.page d)) :
    warnList d =
      (if hasExternal d.page_content.toList then [extWarning] else []) ++
      (findIter d.page_content.toList).flatMap (matchWarnList fs doc.toList) ∧
    ∀ m ∈ findIter d.page_content.toList,
      (missingWarning m.2 ∈ matchWarnList fs doc.toList m ↔
        (fs (String.mk m.2)).isSome = false) ∧
      (emptyLabelWarning m.2 ∈ matchWarnList fs doc.toList m ↔
        m.1.all isPyWs = true) ∧
      (dupWarning m.1 m.2 (pyCount doc.toList m.2) ∈ matchWarnList fs doc.toList m ↔
        ¬ pyCount doc.toList m.2 = 1) := by
  have hd := inspect_manuscript_page_inv fs f pid doc d h1 h2
  subst hd
  constructor
  · rw [buildPage_page_content]
    exact buildPage_warnList fs doc pid
  · intro m _
    exact ⟨mem_matchWarnList_missing fs doc.toList m,
      mem_matchWarnList_empty fs doc.toList m,
      mem_matchWarnList_dup fs doc.toList m⟩

/-- Claim C5 witness: in a two-page document where p.png is referenced once
per page, the reference of page 1 receives the duplication warning (the count
over the whole document is 2). -/
theorem inspect_manuscript_local_image_checks_witness :
    dupWarning ("a".toList) ("p.png".toList)
        (pyCount ("![a](p.png)\n---\n![b](p.png)".toList) ("p.png".toList)) ∈
      matchWarnList (fun s => if s = "d.md" then some "![a](p.png)\n---\n![b](p.png)" else none)
        ("![a](p.png)\n---\n![b](p.png)".toList) ("a".toList, "p.png".toList) :=
  (((inspect_manuscript_local_image_checks
    (fun s => if s = "d.md" then some "![a](p.png)\n---\n![b](p.png)" else none)
    "d.md" 1 "![a](p.png)\n---\n![b](p.png)"
    (buildPage (fun s => if s = "d.md" then some "![a](p.png)\n---\n![b](p.png)" else none)
      "![a](p.png)\n---\n![b](p.png)" 1) rfl rfl).2
    ("a".toList, "p.png".toList) (by decide)).2.2).mpr (by decide)

/-- Claim C10: when the inspected page triggers no warning (no external-image
match, and every finditer reference exists, has a non-whitespace label and
occurs exactly once in the document), the warnings entry of the defaultdict
is never created: the result's warnings field is absent and the dictionary
keys are exactly page_id and page_content. -/
theorem inspect_manuscript_warnings_key_absent (fs : FS) (f : String) (pid : Int)
    (doc : String) (d : PageData)
    (h1 : fs f = some doc)
    (h2 : inspect_manuscript fs f pid = .ok (.page d))
    (hext : hasExternal d.page_content.toList = false)
    (hclean : ∀ m ∈ findIter d.page_content.toList,
      (fs (String.mk m.2)).isSome = true ∧ m.1.all isPyWs = false ∧
        pyCount doc.toList m.2 = 1) :
    d.warnings = none ∧ dictKeys (.page d) = ["page_id", "page_content"] := by
  have hd := inspect_manuscript_page_inv fs f pid doc d h1 h2
  subst hd
  rw [buildPage_page_content] at hext hclean
  have hw : (buildPage fs doc pid).warnings = none := by
    have hne : ¬ hasExternal ((pagesOf doc).getD (pid - 1).toNat "").toList = true := by
      intro hc
      rw [hc] at hext
      exact absurd hext (by decide)
    simp only [buildPage]
    rw [foldl_matchChecks_clean fs doc.toList _ _ hclean]
    rw [if_neg hne]
  exact ⟨hw, by simp [dictKeys, hw]⟩

/-- Claim C10 witness: a page with no image references yields a result whose
warnings key is absent. -/
theorem inspect_manuscript_warnings_key_absent_witness :
    (buildPage (fun s => if s = "p.md" then some "hello" else none) "hello" 1).warnings =
        none ∧
    dictKeys (.page (buildPage (fun s => if s = "p.md" then some "hello" else none)
        "hello" 1)) = ["page_id", "page_content"] :=
  inspect_manuscript_warnings_key_absent
    (fun s => if s = "p.md" then some "hello" else none) "p.md" 1 "hello"
    (buildPage (fun s => if s = "p.md" then some "hello" else none) "hello" 1)
    rfl rfl (by decide) (by decide)
